import Mathlib

/-!
Verification development for the FindMiiEditor level-table tool
(`src/main.rs`).

The development shallowly embeds the three code paths of `main`:

* the 64-byte record codec (`Level::from_bytes` / `Level::to_bytes`) and
  the table codec (`Level::from_file` / `Level::to_file`);
* the Assemble validation scan (lines 119-145);
* the Randomize engine (lines 165-748).

Machine integers are modelled as `Nat`; an `f32` is modelled by its
32-bit pattern (a `Nat` below `2^32`) on the codec side, where the code
only moves bits, and by an exact rational (`ℚ`) on the randomizer side,
where the code assigns and compares decimal literals.  The `rand` crate
is external to the repository, so the pseudorandom stream is modelled
abstractly from the spec as a sequential stream of rational draws.
-/

/-- Modelled from the spec: the rand crate's PRNG (`SmallRng` seeded
from a 64-bit seed) is external to the repository.  Per §4.1/§5 of the
spec the engine consumes "a single sequential pseudorandom stream seeded
once"; we model the stream abstractly as a function from draw positions
to rational raw values together with the current position.  One seed
determines one stream. -/
structure Rng where
  f : Nat → ℚ
  pos : Nat

/-- Advance the stream by one raw draw. -/
def Rng.next (r : Rng) : ℚ × Rng :=
  (r.f r.pos, { f := r.f, pos := r.pos + 1 })

/-- Raw draw folded onto the naturals. -/
def ratToNat (q : ℚ) : Nat := q.num.toNat

/-- Modelled from the spec: `rng.sample(Uniform::new_inclusive(lo, hi))`
on integers draws uniformly (inclusive) from `[lo, hi]`; the model folds
the next raw draw into that range. -/
def sampleNat (r : Rng) (lo hi : Nat) : Nat × Rng :=
  let q := r.next
  (lo + ratToNat q.1 % (hi + 1 - lo), q.2)

/-- Modelled from the spec: `rng.sample(Uniform::new_inclusive(lo, hi))`
on floats draws from `[lo, hi]`; the model passes the next raw draw
through when it lies in the range and otherwise returns `lo`. -/
def sampleRat (r : Rng) (lo hi : ℚ) : ℚ × Rng :=
  let q := r.next
  (if lo ≤ q.1 ∧ q.1 ≤ hi then q.1 else lo, q.2)

/-- Modelled from the spec: `rng.gen_ratio(n, d)` returns `true` with
probability `n/d`; the model decides it from the next raw draw so that
both outcomes are reachable whenever `0 < n < d`. -/
def genRatio (r : Rng) (n d : Nat) : Bool × Rng :=
  let q := r.next
  (decide (ratToNat q.1 % d < n), q.2)

/-- One game level record (struct `Level`, lines 11-29).  The four count
and enum fields are `u32`; the twelve scene parameters are `f32`.  The
structure is parametric in the carrier of the twelve scene fields: the
codec instantiates it with the 32-bit pattern (`Nat`), the randomizer
with the exact rational value (`ℚ`). -/
structure Level (α : Type) where
  num_miis : Nat
  behavior : Nat
  level_type : Nat
  map : Nat
  zoom_out_max : α
  zoom_in_max : α
  unk7 : α
  horiz_dist : α
  vert_dist : α
  darkness : α
  head_size : α
  unk12 : α
  unk13 : α
  unk14 : α
  unk15 : α
  unk16 : α
  deriving DecidableEq, Repr

attribute [ext] Level

/-- Big-endian read of a `u32` starting at byte offset `off` of a
64-byte buffer (`BigEndian::read_u32`); offsets past the buffer read 0
(all offsets the code uses are in bounds). -/
def readU32 (b : Fin 64 → Nat) (off : Nat) : Nat :=
  let at_ : Nat → Nat := fun k => if h : k < 64 then b ⟨k, h⟩ else 0
  16777216 * at_ off + 65536 * at_ (off + 1) + 256 * at_ (off + 2) + at_ (off + 3)

/-- The sixteen stored fields in declaration order (offsets 0,4,...,60),
used to express `to_bytes`. -/
def Level.field (l : Level Nat) : Nat → Nat
  | 0 => l.num_miis
  | 1 => l.behavior
  | 2 => l.level_type
  | 3 => l.map
  | 4 => l.zoom_out_max
  | 5 => l.zoom_in_max
  | 6 => l.unk7
  | 7 => l.horiz_dist
  | 8 => l.vert_dist
  | 9 => l.darkness
  | 10 => l.head_size
  | 11 => l.unk12
  | 12 => l.unk13
  | 13 => l.unk14
  | 14 => l.unk15
  | _ => l.unk16

/-- `Level::from_bytes` (lines 32-51): field-wise big-endian
reinterpretation of a 64-byte buffer.  `f32` fields are carried as their
bit patterns, which is exactly what `BigEndian::read_f32` transports. -/
def Level.from_bytes (b : Fin 64 → Nat) : Level Nat where
  num_miis := readU32 b 0
  behavior := readU32 b 4
  level_type := readU32 b 8
  map := readU32 b 12
  zoom_out_max := readU32 b 16
  zoom_in_max := readU32 b 20
  unk7 := readU32 b 24
  horiz_dist := readU32 b 28
  vert_dist := readU32 b 32
  darkness := readU32 b 36
  head_size := readU32 b 40
  unk12 := readU32 b 44
  unk13 := readU32 b 48
  unk14 := readU32 b 52
  unk15 := readU32 b 56
  unk16 := readU32 b 60

/-- `Level::to_bytes` (lines 53-70): byte `i` of the output buffer is
byte `i % 4` (big-endian) of the field stored at offset `4 * (i / 4)`. -/
def Level.to_bytes (l : Level Nat) : Fin 64 → Nat := fun i =>
  l.field (i.val / 4) / 256 ^ (3 - i.val % 4) % 256

/-- Well-formed buffer: all 64 cells below 256. -/
def BytesWF (b : Fin 64 → Nat) : Prop := ∀ i, b i < 256

/-- Well-formed level: all sixteen stored fields fit in a `u32`; every
level produced by `Level.from_bytes` satisfies this. -/
def LevelWF (l : Level Nat) : Prop := ∀ k < 16, l.field k < 4294967296

lemma field_from_bytes (b : Fin 64 → Nat) (g : Nat) (hg : g < 16) :
    (Level.from_bytes b).field g = readU32 b (4 * g) := by
  interval_cases g <;> rfl

lemma readU32_digit (b : Fin 64 → Nat) (hb : BytesWF b) (g j : Nat)
    (hg : g < 16) (hj : j < 4) (h : 4 * g + j < 64) :
    readU32 b (4 * g) / 256 ^ (3 - j) % 256 = b ⟨4 * g + j, h⟩ := by
  have e0 : 4 * g < 64 := by omega
  have e1 : 4 * g + 1 < 64 := by omega
  have e2 : 4 * g + 2 < 64 := by omega
  have e3 : 4 * g + 3 < 64 := by omega
  have h0 := hb ⟨4 * g, e0⟩
  have h1 := hb ⟨4 * g + 1, e1⟩
  have h2 := hb ⟨4 * g + 2, e2⟩
  have h3 := hb ⟨4 * g + 3, e3⟩
  simp only [readU32, dif_pos e0, dif_pos e1, dif_pos e2, dif_pos e3]
  interval_cases j <;> · norm_num; omega

lemma readU32_to_bytes (l : Level Nat) (hl : LevelWF l) (g : Nat) (hg : g < 16) :
    readU32 (Level.to_bytes l) (4 * g) = l.field g := by
  have e0 : 4 * g < 64 := by omega
  have e1 : 4 * g + 1 < 64 := by omega
  have e2 : 4 * g + 2 < 64 := by omega
  have e3 : 4 * g + 3 < 64 := by omega
  have hF := hl g hg
  have d0 : 4 * g / 4 = g := by omega
  have d1 : (4 * g + 1) / 4 = g := by omega
  have d2 : (4 * g + 2) / 4 = g := by omega
  have d3 : (4 * g + 3) / 4 = g := by omega
  have m0 : 4 * g % 4 = 0 := by omega
  have m1 : (4 * g + 1) % 4 = 1 := by omega
  have m2 : (4 * g + 2) % 4 = 2 := by omega
  have m3 : (4 * g + 3) % 4 = 3 := by omega
  simp only [readU32, dif_pos e0, dif_pos e1, dif_pos e2, dif_pos e3,
    Level.to_bytes, d0, d1, d2, d3, m0, m1, m2, m3]
  norm_num
  omega

lemma to_bytes_from_bytes (b : Fin 64 → Nat) (hb : BytesWF b) :
    Level.to_bytes (Level.from_bytes b) = b := by
  funext i
  obtain ⟨k, hk⟩ := i
  have hg : k / 4 < 16 := by omega
  have hj : k % 4 < 4 := by omega
  have hlt : 4 * (k / 4) + k % 4 < 64 := by omega
  have hdig := readU32_digit b hb (k / 4) (k % 4) hg hj hlt
  have hfb := field_from_bytes b (k / 4) hg
  show (Level.from_bytes b).field (k / 4) / 256 ^ (3 - k % 4) % 256 = b ⟨k, hk⟩
  rw [hfb, hdig]
  congr 1
  simp only [Fin.mk.injEq]
  omega

lemma from_bytes_to_bytes (l : Level Nat) (hl : LevelWF l) :
    Level.from_bytes (Level.to_bytes l) = l := by
  ext
  · simpa using readU32_to_bytes l hl 0 (by omega)
  · simpa using readU32_to_bytes l hl 1 (by omega)
  · simpa using readU32_to_bytes l hl 2 (by omega)
  · simpa using readU32_to_bytes l hl 3 (by omega)
  · simpa using readU32_to_bytes l hl 4 (by omega)
  · simpa using readU32_to_bytes l hl 5 (by omega)
  · simpa using readU32_to_bytes l hl 6 (by omega)
  · simpa using readU32_to_bytes l hl 7 (by omega)
  · simpa using readU32_to_bytes l hl 8 (by omega)
  · simpa using readU32_to_bytes l hl 9 (by omega)
  · simpa using readU32_to_bytes l hl 10 (by omega)
  · simpa using readU32_to_bytes l hl 11 (by omega)
  · simpa using readU32_to_bytes l hl 12 (by omega)
  · simpa using readU32_to_bytes l hl 13 (by omega)
  · simpa using readU32_to_bytes l hl 14 (by omega)
  · simpa using readU32_to_bytes l hl 15 (by omega)

lemma readU32_lt (b : Fin 64 → Nat) (hb : BytesWF b) (off : Nat) :
    readU32 b off < 4294967296 := by
  simp only [readU32]
  have h0 : ∀ k, (if h : k < 64 then b ⟨k, h⟩ else 0) < 256 := by
    intro k
    split
    · exact hb _
    · omega
  have := h0 off
  have := h0 (off + 1)
  have := h0 (off + 2)
  have := h0 (off + 3)
  omega

lemma from_bytes_WF (b : Fin 64 → Nat) (hb : BytesWF b) :
    LevelWF (Level.from_bytes b) := by
  intro k hk
  interval_cases k <;> exact readU32_lt b hb _

/-- C2: the record codec is a lossless bijection on 64-byte records:
encoding the level decoded from any 64-byte buffer reproduces the buffer
exactly (bit patterns, including non-finite `f32` patterns, are carried
as raw 32-bit words and hence preserved), every decoded level is
well formed, and decoding the encoding of a well-formed level (in
particular, of any level producible by decoding) is the identity. -/
theorem C2_record_codec_bijective :
    (∀ b : Fin 64 → Nat, BytesWF b → Level.to_bytes (Level.from_bytes b) = b) ∧
    (∀ b : Fin 64 → Nat, BytesWF b → LevelWF (Level.from_bytes b)) ∧
    (∀ l : Level Nat, LevelWF l → Level.from_bytes (Level.to_bytes l) = l) :=
  ⟨to_bytes_from_bytes, from_bytes_WF, from_bytes_to_bytes⟩

/-- The all-zero 64-byte buffer. -/
def zeroBuf : Fin 64 → Nat := fun _ => 0

/-- The all-zero level record. -/
def zeroLevel : Level Nat :=
  ⟨0, 0, 0, 0, 0, 0, 0, 0, 0, 0, 0, 0, 0, 0, 0, 0⟩

/-- C2 witness: the round trips evaluated on the all-zero buffer and the
all-zero level. -/
theorem C2_record_codec_bijective_witness :
    (BytesWF zeroBuf ∧ Level.to_bytes (Level.from_bytes zeroBuf) = zeroBuf) ∧
    (LevelWF zeroLevel ∧ Level.from_bytes (Level.to_bytes zeroLevel) = zeroLevel) :=
  ⟨⟨by intro i; simp [zeroBuf], C2_record_codec_bijective.1 zeroBuf (by intro i; simp [zeroBuf])⟩,
   ⟨by intro k hk; interval_cases k <;> decide,
    C2_record_codec_bijective.2.2 zeroLevel (by intro k hk; interval_cases k <;> decide)⟩⟩

/-- `Level::from_file` (lines 72-79): repeatedly `read_exact` a 64-byte
chunk and decode it until the read fails; a trailing partial chunk makes
`read_exact` fail, which simply ends the loop — the partial bytes are
dropped and the records decoded so far are returned. -/
def Level.from_file (input : List Nat) : List (Level Nat) :=
  if h : 64 ≤ input.length then
    Level.from_bytes (fun i => input.getD i.val 0) :: Level.from_file (input.drop 64)
  else []
termination_by input.length
decreasing_by simp; omega

/-- `Level::to_file` (lines 81-87): write each record's 64-byte encoding
in sequence order. -/
def Level.to_file : List (Level Nat) → List Nat
  | [] => []
  | l :: ls => List.ofFn (Level.to_bytes l) ++ Level.to_file ls

lemma from_file_spec (input : List Nat) :
    Level.from_file input =
      (List.range (input.length / 64)).map
        (fun k => Level.from_bytes (fun i => input.getD (64 * k + i.val) 0)) := by
  induction input using Level.from_file.induct with
  | case1 input h ih =>
    rw [Level.from_file, dif_pos h, ih]
    have hdiv : input.length / 64 = (input.length - 64) / 64 + 1 :=
      Nat.div_eq_sub_div (by omega) h
    rw [hdiv, List.range_succ_eq_map]
    simp only [List.map_cons, List.map_map]
    refine List.cons_eq_cons.mpr ⟨?_, ?_⟩
    · congr 1
      funext i
      simp
    · simp only [List.length_drop]
      apply List.map_congr_left
      intro k hk
      simp only [Function.comp_apply]
      congr 1
      funext i
      rw [List.getD_eq_getElem?_getD, List.getD_eq_getElem?_getD,
        List.getElem?_drop]
      have e : 64 + (64 * k + i.val) = 64 * (k + 1) + i.val := by omega
      rw [e]
  | case2 input h =>
    rw [Level.from_file, dif_neg h]
    have : input.length / 64 = 0 := by omega
    simp [this]

/-- C4 counterexample: a 65-byte stream, whose length is not a multiple
of 64, does not fail and decodes one record rather than zero — the
trailing byte is silently dropped. -/
theorem C4_counterexample_partial_chunk :
    (Level.from_file (List.replicate 65 0)).length = 1 := by
  rw [Level.from_file]
  simp [Level.from_file]

/-- C4 (amended): `Level::from_file` never fails: on a stream of
`n * 64 + r` bytes (`0 ≤ r < 64`) it silently ignores the trailing `r`
bytes and returns the first `n` records in stream order; in particular
on exactly `n * 64` bytes it returns exactly `n` records.  There is no
`TruncatedRecord` error anywhere in the code. -/
theorem C4_table_decode_drops_partial_chunk (input : List Nat) :
    (Level.from_file input).length = input.length / 64 ∧
      Level.from_file input =
        (List.range (input.length / 64)).map
          (fun k => Level.from_bytes (fun i => input.getD (64 * k + i.val) 0)) :=
  ⟨by rw [from_file_spec]; simp, from_file_spec input⟩

/-- Warnings printed by the Assemble validation scan (lines 119-145),
one constructor per `println!` site. -/
inductive Warning where
  | dup_pick_favorite (idx : Nat)
  | unmatched_find_favorite (idx : Nat)
  | incompatible_behavior13 (idx bhv : Nat)
  | incompatible_behavior0 (idx bhv : Nat)
  | mii_cap_exceeded (idx cap : Nat)
  | unresolved_favorite_pairing
  deriving DecidableEq, Repr

/-- One iteration of the validation scan (lines 121-140): the `match`
over `level_type` with its guards, tried in source order, followed by
the separate Mii-cap check.  Returns the updated `favorite_pending` flag
and the warnings printed for this level. -/
def scanLevel {α : Type} (p : Bool) (idx : Nat) (l : Level α) : Bool × List Warning :=
  let m :=
    if l.level_type = 6 ∧ ¬p then (true, ([] : List Warning))
    else if l.level_type = 6 ∧ p then (p, [Warning.dup_pick_favorite idx])
    else if l.level_type = 7 ∧ ¬p then (p, [Warning.unmatched_find_favorite idx])
    else if l.level_type = 7 ∧ p then (false, [])
    else if (l.level_type = 9 ∨ l.level_type = 10 ∨ l.level_type = 11) ∧
        l.behavior ≠ 1 ∧ l.behavior ≠ 3 then
      (p, [Warning.incompatible_behavior13 idx l.behavior])
    else if (l.level_type = 17 ∨ l.level_type = 18 ∨ l.level_type = 19) ∧
        l.behavior ≠ 0 then
      (p, [Warning.incompatible_behavior0 idx l.behavior])
    else (p, [])
  let max_miis : Nat := if l.map = 4 then 40 else 99
  (m.1, m.2 ++ if max_miis < l.num_miis then [Warning.mii_cap_exceeded idx max_miis] else [])

/-- The validation scan from a given flag value and index onward,
emitting `unresolved_favorite_pairing` when the flag survives the
scan (lines 143-145). -/
def validateFrom {α : Type} (p : Bool) (idx : Nat) : List (Level α) → List Warning
  | [] => if p then [Warning.unresolved_favorite_pairing] else []
  | l :: ls =>
    let s := scanLevel p idx l
    s.2 ++ validateFrom s.1 (idx + 1) ls

/-- The Assemble validation pass (lines 119-145): a single left-to-right
scan with `favorite_pending` initialized to `false`. -/
def validate {α : Type} (levels : List (Level α)) : List Warning :=
  validateFrom false 0 levels

/-- The Assemble path (lines 115-151): run the validation pass, then
write the binary encoding of the (unchanged) input table. -/
def assemble (levels : List (Level Nat)) : List Warning × List Nat :=
  (validate levels, Level.to_file levels)

/-- C8: the Validation Pass never mutates the table and never aborts:
the binary output of assemble is exactly the concatenation of the
64-byte encodings of the input levels in input order (64 bytes per
record), a function of the records alone — the same whether the pass
emits zero warnings or many. -/
theorem C8_assemble_output_untouched (levels : List (Level Nat)) :
    (assemble levels).2 =
        (levels.map (fun l => List.ofFn (Level.to_bytes l))).flatten ∧
      (assemble levels).2.length = 64 * levels.length := by
  constructor
  · show Level.to_file levels = _
    induction levels with
    | nil => rfl
    | cons l ls ih => simp [Level.to_file, ih]
  · show (Level.to_file levels).length = _
    induction levels with
    | nil => rfl
    | cons l ls ih =>
      simp [Level.to_file, ih]
      ring

/-- C7: the Validation Pass scans in index order with a single
`favorite_pending` flag initialized `false`; a level of type 6 opens a
pairing and a surviving open pairing yields exactly one
`unresolved_favorite_pairing` warning.  Concretely: every 3-level table
whose level 0 has `level_type` 6, whose later levels have no `level_type`
6 or 7, and which triggers no behavior-compatibility or Mii-cap warning,
validates to exactly the one `unresolved_favorite_pairing` warning. -/
theorem C7_scenario_unresolved_pairing {α : Type} (l0 l1 l2 : Level α)
    (h0 : l0.level_type = 6)
    (hc0 : l0.num_miis ≤ if l0.map = 4 then 40 else 99)
    (h16 : l1.level_type ≠ 6) (h17 : l1.level_type ≠ 7)
    (h1o : ¬((l1.level_type = 9 ∨ l1.level_type = 10 ∨ l1.level_type = 11) ∧
      l1.behavior ≠ 1 ∧ l1.behavior ≠ 3))
    (h1i : ¬((l1.level_type = 17 ∨ l1.level_type = 18 ∨ l1.level_type = 19) ∧
      l1.behavior ≠ 0))
    (hc1 : l1.num_miis ≤ if l1.map = 4 then 40 else 99)
    (h26 : l2.level_type ≠ 6) (h27 : l2.level_type ≠ 7)
    (h2o : ¬((l2.level_type = 9 ∨ l2.level_type = 10 ∨ l2.level_type = 11) ∧
      l2.behavior ≠ 1 ∧ l2.behavior ≠ 3))
    (h2i : ¬((l2.level_type = 17 ∨ l2.level_type = 18 ∨ l2.level_type = 19) ∧
      l2.behavior ≠ 0))
    (hc2 : l2.num_miis ≤ if l2.map = 4 then 40 else 99) :
    validate [l0, l1, l2] = [Warning.unresolved_favorite_pairing] := by
  simp [validate, validateFrom, scanLevel, h0, h16, h17, h1o, h1i, h26, h27,
    h2o, h2i, Nat.not_lt.mpr hc0, Nat.not_lt.mpr hc1, Nat.not_lt.mpr hc2]

/-- C7 witness: the scenario evaluated on a concrete 3-level table. -/
theorem C7_scenario_unresolved_pairing_witness :
    validate [{ zeroLevel with level_type := 6 }, zeroLevel, zeroLevel] =
      [Warning.unresolved_favorite_pairing] :=
  C7_scenario_unresolved_pairing { zeroLevel with level_type := 6 } zeroLevel
    zeroLevel (by decide) (by decide) (by decide) (by decide) (by decide)
    (by decide) (by decide) (by decide) (by decide) (by decide) (by decide)
    (by decide)

/-- Lines 176-202: decide `level_type` for level index `i`.  On the last
index an open pairing forces 7, otherwise a draw from `[1, 19]` shifted
past 5 avoids 6 and 7; on earlier indices a draw from `[1, 21]` of 6 or
7 is redirected according to the `favorite_pending` flag.  Returns the
chosen type, the advanced stream, and the updated flag. -/
def decideType (r : Rng) (p : Bool) (i lastIdx : Nat) : Nat × Rng × Bool :=
  if i = lastIdx then
    if p then (7, r, false)
    else
      let s := sampleNat r 1 19
      (if s.1 > 5 then s.1 + 2 else s.1, s.2, p)
  else
    let s := sampleNat r 1 21
    if s.1 = 6 ∨ s.1 = 7 then
      if p then (7, s.2, false) else (6, s.2, true)
    else (s.1, s.2, p)

/-- Lines 218-224: the `behavior` decision `match` over `level_type`. -/
def decideBehavior (r : Rng) (t : Nat) : Nat × Rng :=
  match t with
  | 9 | 10 | 5 | 11 | 20 => let g := genRatio r 1 2; (if g.1 then 1 else 3, g.2)
  | 17 | 18 | 19 => (0, r)
  | 14 | 15 | 16 => (0, r)
  | 12 | 13 => let g := genRatio r 1 2; (if g.1 then 4 else 2, g.2)
  | _ => sampleNat r 0 6

/-- Lines 232-239: the inner `match` over `map` re-deciding `behavior`
under the `map == 1` guard (only its first arm is reachable). -/
def mapOneBehavior (r : Rng) (m : Nat) : Nat × Rng :=
  match m with
  | 1 =>
    let g1 := genRatio r 1 4
    if g1.1 then (0, g1.2)
    else
      let g2 := genRatio g1.2 1 2
      (if g2.1 then 1 else 4, g2.2)
  | 4 => let g := genRatio r 1 2; (if g.1 then 0 else 1, g.2)
  | 3 => let g := genRatio r 1 2; (if g.1 then 0 else 1, g.2)
  | _ => sampleNat r 4 5

/-- Lines 176-248 of the Randomize arm: the unconditional per-level
prefix.  It decides `level_type`, draws `num_miis` — whose cap reads the
INPUT level's `map` (line 204), since `map` is only redrawn at line 227
— zeroes `unk12..unk16`, decides `behavior`, redraws `map`, re-decides
`behavior` for maps 4 and 1, and draws zoom, darkness and head size.
After this prefix every field of the level has been written except
`unk7`, `horiz_dist` and `vert_dist`. -/
def phase1 (r : Rng) (p : Bool) (i lastIdx : Nat) (lvl : Level ℚ) :
    Level ℚ × Rng × Bool :=
  let td := decideType r p i lastIdx
  let l1 := { lvl with level_type := td.1 }
  let max_miis : Nat := if lvl.map = 4 then 40 else 90
  let s1 := sampleNat td.2.1 6 max_miis
  let l2 := { l1 with num_miis := s1.1,
                      unk12 := 0, unk13 := 0, unk14 := 0, unk15 := 0, unk16 := 0 }
  let bb := decideBehavior s1.2 l2.level_type
  let l3 := { l2 with behavior := bb.1 }
  let mm := sampleNat bb.2 0 4
  let l4 := { l3 with map := mm.1 }
  let e1 : Level ℚ × Rng := if l4.map = 4 then
      (let s := sampleNat mm.2 0 1
       ({ l4 with behavior := s.1 }, s.2))
    else (l4, mm.2)
  let e2 : Level ℚ × Rng := if e1.1.map = 1 then
      (let s := mapOneBehavior e1.2 e1.1.map
       ({ e1.1 with behavior := s.1 }, s.2))
    else e1
  let z1 := sampleRat e2.2 (-406) (-135)
  let z2 := sampleRat z1.2 (-135) (-22)
  let dk := genRatio z2.2 1 2
  let dv := if dk.1 then ((0 : ℚ), dk.2) else sampleRat dk.2 84 110
  let hs := sampleRat dv.2 1.35 3.5
  ({ e2.1 with zoom_out_max := z1.1, zoom_in_max := z2.1,
               darkness := dv.1, head_size := hs.1 }, hs.2, td.2.2)

/-- Lines 249-295: darkness side parameters (249-255), the map-3 zoom
and distance overrides (257-265), the per-map `unk7` settings (267-280),
and the Street and Ocean bounding fixes (281-295). -/
def cascade1 (l0 : Level ℚ) (r0 : Rng) : Level ℚ × Rng :=
  let l1 := if l0.darkness > 1 then
      { l0 with unk12 := 3, unk13 := 10, unk14 := 1, unk15 := 0, unk16 := 6 }
    else l0
  let s2 : Level ℚ × Rng := if l1.map = 3 then
      (let g := genRatio r0 1 2
       ({ l1 with zoom_out_max := if g.1 then -279.60767 else -187.60767,
                  zoom_in_max := -279.60767 }, g.2))
    else (l1, r0)
  let l3 := if s2.1.map = 3 then
      { s2.1 with horiz_dist := 4.7, vert_dist := 22.4 } else s2.1
  let l4 := if l3.map = 4 then { l3 with unk7 := 35 } else l3
  let l5 := if l4.map = 2 then { l4 with unk7 := 0 } else l4
  let l6 := if l5.map = 3 then { l5 with unk7 := -60 } else l5
  let s7 : Level ℚ × Rng := if l6.map = 0 then
      (let g1 := genRatio s2.2 3 4
       let g2 := genRatio g1.2 3 4
       ({ l6 with zoom_out_max := if g1.1 then -199 else -205,
                  zoom_in_max := if g2.1 then -199 else -205,
                  horiz_dist := 35, vert_dist := 97 }, g2.2))
    else (l6, s2.2)
  if s7.1.map = 1 then
    (let g1 := genRatio s7.2 3 4
     let g2 := genRatio g1.2 3 4
     let g3 := genRatio g2.2 3 4
     let g4 := genRatio g3.2 3 4
     ({ s7.1 with zoom_out_max := if g1.1 then -180 else -240,
                  zoom_in_max := if g2.1 then -180 else -240,
                  horiz_dist := if g3.1 then 30 else 40,
                  vert_dist := if g4.1 then 90 else 113 }, g4.2))
  else s7

/-- Lines 296-301: Escalator stage (map 4) — `num_miis` resampled into
`[8, 40]`. -/
def fixEscalatorMiis (l : Level ℚ) (r : Rng) : Level ℚ × Rng :=
  if l.map = 4 then
    (let s := sampleNat r 8 40
     ({ l with num_miis := s.1 }, s.2))
  else (l, r)

/-- Lines 302-392: objective-forced behavior for types 5/9/10/11/20
(302-325), map-3 insomniac darkness and fastest-Mii behavior (327-336,
line 334 is a comparison and hence a no-op), sleepyhead behavior draws
(338-351), map-0 sleepyhead darkness (354-357), Street non-zoom and
walking-behavior fixes (359-377), Ocean darkness (380-385), and the
map-3 behavior redirect (388-392). -/
def cascade2 (l0 : Level ℚ) (r0 : Rng) : Level ℚ × Rng :=
  let l1 := if l0.level_type = 5 then { l0 with behavior := 1 } else l0
  let l2 := if l1.level_type = 9 then { l1 with behavior := 1 } else l1
  let l3 := if l2.level_type = 10 then { l2 with behavior := 1 } else l2
  let l4 := if l3.level_type = 11 then { l3 with behavior := 1 } else l3
  let l5 := if l4.level_type = 20 then { l4 with behavior := 1 } else l4
  let l6 := if l5.map = 3 ∧
      (l5.level_type = 17 ∨ l5.level_type = 18 ∨ l5.level_type = 19) then
      { l5 with darkness := 0 } else l5
  let l7 := if l6.map = 3 ∧ (l6.level_type = 12 ∨ l6.level_type = 13) then
      { l6 with behavior := 3 } else l6
  let s8 : Level ℚ × Rng := if l7.level_type = 14 then
      (let g := genRatio r0 1 2
       ({ l7 with behavior := if g.1 then 1 else 0 }, g.2))
    else (l7, r0)
  let s9 : Level ℚ × Rng := if s8.1.level_type = 15 then
      (let g := genRatio s8.2 1 2
       ({ s8.1 with behavior := if g.1 then 1 else 0 }, g.2))
    else s8
  let s10 : Level ℚ × Rng := if s9.1.level_type = 16 then
      (let g := genRatio s9.2 1 2
       ({ s9.1 with behavior := if g.1 then 1 else 0 }, g.2))
    else s9
  let l11 := if s10.1.map = 0 ∧ (s10.1.level_type = 14 ∨
      s10.1.level_type = 15 ∨ s10.1.level_type = 16) then
      { s10.1 with darkness := 0 } else s10.1
  let l12 := if l11.map = 0 ∧ l11.zoom_out_max > -199 then
      { l11 with zoom_out_max := -222, zoom_in_max := -222,
                 horiz_dist := 4.5, vert_dist := 35.4 }
    else l11
  let s13 : Level ℚ × Rng := if l12.map = 0 ∧ (l12.behavior = 2 ∨
      l12.behavior = 4 ∨ l12.behavior = 6 ∨ l12.level_type = 14 ∨
      l12.level_type = 15 ∨ l12.level_type = 16) then
      (let g := genRatio s10.2 1 2
       ({ l12 with zoom_out_max := -222, zoom_in_max := -222,
                   horiz_dist := if g.1 then 33.4 else 57,
                   vert_dist := 57.4 }, g.2))
    else (l12, s10.2)
  let l14 := if s13.1.map = 1 then { s13.1 with darkness := 0 } else s13.1
  let l15 := if l14.map = 3 ∧
      (l14.behavior = 3 ∨ l14.behavior = 4 ∨ l14.behavior = 6) then
      { l14 with behavior := 1 } else l14
  (l15, s13.2)

/-- Lines 393-401: Space stage (map 2) — `num_miis` resampled into
`[20, 30]` plus zoom overrides. -/
def fixSpaceMiis (l : Level ℚ) (r : Rng) : Level ℚ × Rng :=
  if l.map = 2 then
    (let s := sampleNat r 20 30
     let g := genRatio s.2 1 2
     ({ l with num_miis := s.1, zoom_out_max := -180,
               zoom_in_max := if g.1 then -180 else -297.4774 }, g.2))
  else (l, r)

/-- Lines 404-412: Space stage with behavior 5 — camera override and
`num_miis` resampled into `[8, 12]`. -/
def fixSpaceBehavior5 (l : Level ℚ) (r : Rng) : Level ℚ × Rng :=
  if l.map = 2 ∧ l.behavior = 5 then
    (let s := sampleNat r 8 12
     let g := genRatio s.2 70 100
     ({ l with num_miis := s.1, zoom_out_max := -222, zoom_in_max := -222,
               horiz_dist := if g.1 then 30 else 35, vert_dist := 21 }, g.2))
  else (l, r)

/-- Lines 413-418: Escalator sleepyhead fix — `level_type` redrawn from
`[1, 5]`. -/
def fixEscalatorSleepyhead (l : Level ℚ) (r : Rng) : Level ℚ × Rng :=
  if l.map = 4 ∧ (l.level_type = 14 ∨ l.level_type = 15 ∨ l.level_type = 16) then
    (let s := sampleNat r 1 5
     ({ l with level_type := s.1 }, s.2))
  else (l, r)

/-- Lines 420-428: Space stage with behavior 0 or 1 — camera override
and `num_miis` resampled into `[8, 10]`. -/
def fixSpaceBehavior01 (l : Level ℚ) (r : Rng) : Level ℚ × Rng :=
  if l.map = 2 ∧ (l.behavior = 0 ∨ l.behavior = 1) then
    (let s := sampleNat r 8 10
     ({ l with zoom_out_max := -180, zoom_in_max := -297.4774,
               horiz_dist := 26.9, vert_dist := 21.9, num_miis := s.1 }, s.2))
  else (l, r)

/-- Lines 430-531: the Space odd-Mii behavior fix (430-433, with the
duplicated `level_type == 10` disjunct as written), Ocean behavior-6 fix
(436-440), Escalator odd-Mii redraw (441-446), Space fastest-Mii type
reset (448-452), the Space camera parameter cascade (454-485), Street
and Ocean camera follow-ups (487-498), the map-3 sleepyhead/fastest/
odd-Mii redirects (499-519), and the Space darkness redraw (521-531). -/
def cascade3 (l0 : Level ℚ) (r0 : Rng) : Level ℚ × Rng :=
  let l1 := if l0.map = 2 ∧
      (l0.level_type = 9 ∨ l0.level_type = 10 ∨ l0.level_type = 10) then
      { l0 with behavior := 1 } else l0
  let l2 := if l1.map = 1 ∧ l1.behavior = 6 then { l1 with behavior := 4 } else l1
  let s3 : Level ℚ × Rng := if l2.map = 4 ∧
      (l2.level_type = 9 ∨ l2.level_type = 10 ∨ l2.level_type = 11) then
      (let g1 := genRatio r0 2 4
       if g1.1 then ({ l2 with level_type := 3 }, g1.2)
       else
         let g2 := genRatio g1.2 2 4
         ({ l2 with level_type := if g2.1 then 9 else 21 }, g2.2))
    else (l2, r0)
  let l4 := if s3.1.map = 2 ∧ (s3.1.level_type = 12 ∨ s3.1.level_type = 13) then
      { s3.1 with level_type := 1 } else s3.1
  let l5 := if l4.map = 2 ∧ (l4.zoom_out_max = -180 ∨ l4.zoom_in_max = -180) then
      { l4 with horiz_dist := 29.9, vert_dist := 16.9 } else l4
  let l6 := if l5.map = 2 ∧
      (l5.zoom_out_max = -180 ∨ l5.zoom_in_max = -297.4774) then
      { l5 with horiz_dist := 29.9, vert_dist := 16.9 } else l5
  let s7 : Level ℚ × Rng := if l6.map = 2 then
      (let g := genRatio s3.2 1 2
       ({ l6 with behavior := if g.1 then 5 else 1 }, g.2))
    else (l6, s3.2)
  let l8 := if s7.1.map = 2 ∧ (s7.1.behavior = 5 ∨
      s7.1.zoom_out_max = -180 ∨ s7.1.zoom_in_max = -180) then
      { s7.1 with horiz_dist := 26.9, vert_dist := 21.9 } else s7.1
  let l9 := if l8.map = 2 ∧ l8.behavior = 1 then
      { l8 with horiz_dist := 26.9, vert_dist := 21.9,
                zoom_out_max := -180, zoom_in_max := -297.4774 } else l8
  let l10 := if l9.map = 0 ∧ (l9.zoom_out_max = -205 ∨ l9.zoom_in_max = -199) then
      { l9 with horiz_dist := 22.4, vert_dist := 64 } else l9
  let l11 := if l10.map = 1 ∧ l10.zoom_out_max = -240 then
      { l10 with zoom_in_max := -180, horiz_dist := 15, vert_dist := 72 } else l10
  let l12 := if l11.map = 3 ∧ (l11.level_type = 14 ∨ l11.level_type = 15 ∨
      l11.level_type = 16) then
      { l11 with level_type := 21, behavior := 1 } else l11
  let l13 := if l12.map = 3 ∧ (l12.level_type = 12 ∨ l12.level_type = 13) then
      { l12 with level_type := 21, behavior := 0 } else l12
  let l14 := if l13.map = 3 ∧ (l13.level_type = 9 ∨ l13.level_type = 10 ∨
      l13.level_type = 11 ∨ l13.level_type = 20) then
      { l13 with behavior := 1 } else l13
  if l14.map = 2 then
    (let g := genRatio s7.2 2 4
     if g.1 then ({ l14 with darkness := 0 }, g.2)
     else
       let s := sampleRat g.2 94.9 135
       ({ l14 with darkness := s.1 }, s.2))
  else (l14, s7.2)

/-- Lines 532-608: the map-3 insomniac redirect (533-538), Street and
Ocean camera follow-ups (539-561), the Street distance chain (563-568),
the Space fastest-Mii distances and odd-Mii darkness (570-579), the
Escalator fastest-Mii redraws (580-593) and the insomniac forced
behavior (595-608). -/
def cascade4 (l0 : Level ℚ) (r0 : Rng) : Level ℚ × Rng :=
  let l1 := if l0.map = 3 ∧ (l0.level_type = 17 ∨ l0.level_type = 18 ∨
      l0.level_type = 19) then
      { l0 with level_type := 10, behavior := 1 } else l0
  let l2 := if l1.map = 0 ∧ (l1.zoom_out_max = -205 ∨ l1.zoom_in_max = -205) then
      { l1 with horiz_dist := 4.7, vert_dist := 24 } else l1
  let l3 := if l2.map = 1 ∧ (l2.zoom_out_max = -180 ∨ l2.zoom_in_max = -180) then
      { l2 with horiz_dist := 10.2, vert_dist := 17.4 } else l2
  let l4 := if l3.map = 0 ∧ l3.behavior = 5 then { l3 with behavior := 1 } else l3
  let l5 := if l4.map = 0 ∧ (l4.zoom_out_max = -199 ∨ l4.zoom_in_max = -199) then
      { l4 with horiz_dist := 4, vert_dist := 11 } else l4
  let l6 := if l5.map = 0 ∧ (l5.horiz_dist = 10.2 ∨ l5.vert_dist = 17.4) then
      { l5 with horiz_dist := 22.4, vert_dist := 64, zoom_in_max := -205 } else l5
  let l7 := if l6.map = 2 ∧ (l6.level_type = 12 ∨ l6.level_type = 13) then
      { l6 with horiz_dist := 16.3, vert_dist := 12.8 } else l6
  let l8 := if l7.map = 2 ∧ (l7.level_type = 9 ∨ l7.level_type = 10 ∨
      l7.level_type = 11) then
      { l7 with darkness := 0 } else l7
  let s9 : Level ℚ × Rng := if l8.map = 4 ∧ l8.level_type = 13 then
      (let g := genRatio r0 2 4
       ({ l8 with level_type := if g.1 then 10 else 2, behavior := 1 }, g.2))
    else (l8, r0)
  let s10 : Level ℚ × Rng := if s9.1.map = 4 ∧ s9.1.level_type = 12 then
      (let g := genRatio s9.2 2 4
       ({ s9.1 with level_type := if g.1 then 10 else 2, behavior := 1 }, g.2))
    else s9
  let l11 := if s10.1.level_type = 17 then { s10.1 with behavior := 0 } else s10.1
  let l12 := if l11.level_type = 18 then { l11 with behavior := 0 } else l11
  let l13 := if l12.level_type = 19 then { l12 with behavior := 0 } else l12
  (l13, s10.2)

/-- Lines 609-685: the Street darkness/odd-Mii redirect (610-613, which
can overwrite any `level_type` including 6 and 7 when darkness exceeds
0.1), Street odd-Mii behavior (616-619), Ocean fastest-Mii behavior
draw (621-625), Street distances (627-631), map-3 behavior-5 redirect
(633-636), Ocean camera fixes (638-643 and 651-655 and 668-672), the
Ocean insomniac redirect (645-649), map-3 behavior-3 fix (657-660), the
map-3 and Street darkness redirects (662-680, again able to overwrite
`level_type` 6 or 7), and the map-3 zoom distance fix (681-685). -/
def cascade5 (l0 : Level ℚ) (r0 : Rng) : Level ℚ × Rng :=
  let l1 := if l0.map = 0 ∧ (l0.level_type = 11 ∨ l0.darkness > 0.1) then
      { l0 with level_type := 10 } else l0
  let l2 := if l1.map = 0 ∧ (l1.level_type = 9 ∨ l1.level_type = 10) then
      { l1 with behavior := 1 } else l1
  let s3 : Level ℚ × Rng := if l2.map = 1 ∧
      (l2.level_type = 12 ∨ l2.level_type = 13) then
      (let g := genRatio r0 3 5
       ({ l2 with behavior := if g.1 then 4 else 6 }, g.2))
    else (l2, r0)
  let l4 := if s3.1.map = 0 ∧ (s3.1.zoom_out_max = -222 ∨
      s3.1.zoom_in_max = -222 ∨ s3.1.behavior = 0 ∨ s3.1.behavior = 1 ∨
      s3.1.behavior = 3 ∨ s3.1.behavior = 5) then
      { s3.1 with horiz_dist := 11.4, vert_dist := 12.9 } else s3.1
  let l5 := if l4.map = 3 ∧ l4.behavior = 5 then
      { l4 with behavior := 1, level_type := 10 } else l4
  let l6 := if l5.map = 1 ∧ (l5.zoom_out_max = -180 ∨ l5.zoom_out_max = -180) then
      { l5 with horiz_dist := 8.2, vert_dist := 12.4 } else l5
  let l7 := if l6.map = 1 ∧ (l6.level_type = 17 ∨ l6.level_type = 18 ∨
      l6.level_type = 19) then
      { l6 with behavior := 1, level_type := 21 } else l6
  let l8 := if l7.map = 1 ∧ (l7.zoom_out_max = -240 ∨ l7.zoom_out_max = -240 ∨
      l7.behavior = 4 ∨ l7.behavior = 2 ∨ l7.behavior = 6) then
      { l7 with horiz_dist := 38.2, vert_dist := 26.4 } else l7
  let l9 := if l8.map = 3 ∧ l8.behavior = 3 then { l8 with behavior := 1 } else l8
  let l10 := if l9.map = 3 ∧ (l9.level_type = 2 ∨ l9.level_type = 4 ∨
      l9.darkness > 0.1) then
      { l9 with level_type := 10, behavior := 1 } else l9
  let l11 := if l10.map = 1 ∧ (l10.zoom_out_max = -240 ∨ l10.zoom_out_max = -240 ∨
      l10.behavior = 2 ∨ l10.behavior = 4 ∨ l10.behavior = 6) then
      { l10 with horiz_dist := 40.6, vert_dist := 60.4 } else l10
  let l12 := if l11.map = 0 ∧ (l11.level_type = 2 ∨ l11.level_type = 3 ∨
      l11.level_type = 4 ∨ l11.darkness > 0.1) then
      { l11 with level_type := 8, behavior := 4 } else l11
  let l13 := if l12.map = 3 ∧ (l12.zoom_out_max = -279.60767 ∨
      l12.zoom_out_max = -279.60767) then
      { l12 with horiz_dist := 5.4, vert_dist := 8.2 } else l12
  (l13, s3.2)

/-- Lines 686-697: Street bounding fix for walking Miis — `unk7` and
camera overrides, a float `horiz_dist` draw, and `num_miis` resampled
into `[8, 45]` (with the duplicated `zoom_out_max == -222.0` disjunct
as written). -/
def fixStreetWalking (l : Level ℚ) (r : Rng) : Level ℚ × Rng :=
  if l.map = 0 ∧ (l.behavior = 4 ∨ l.zoom_out_max = -222 ∨
      l.zoom_out_max = -222) then
    (let s1 := sampleRat r 30 38.3
     let s2 := sampleNat s1.2 8 45
     ({ l with unk7 := 17, horiz_dist := s1.1, vert_dist := 117,
               zoom_in_max := -200, zoom_out_max := -200,
               num_miis := s2.1 }, s2.2))
  else (l, r)

/-- Lines 698-705: Ocean Mii position fix — camera and distance
overrides (with the duplicated `zoom_out_max == -240.0` disjunct as
written). -/
def cascade6 (l : Level ℚ) (r : Rng) : Level ℚ × Rng :=
  if l.map = 1 ∧ (l.zoom_out_max = -240 ∨ l.zoom_out_max = -240 ∨
      l.behavior = 0 ∨ l.behavior = 1 ∨ l.behavior = 3) then
    ({ l with zoom_out_max := -255, zoom_in_max := -255,
              horiz_dist := 6.4, vert_dist := 17.1 }, r)
  else (l, r)

/-- Lines 707-712: Ocean off-screen-Miis fix — `num_miis` resampled into
`[8, 64]`. -/
def fixOceanMiis (l : Level ℚ) (r : Rng) : Level ℚ × Rng :=
  if l.map = 1 ∧ l.zoom_out_max = -255 then
    (let s := sampleNat r 8 64
     ({ l with num_miis := s.1 }, s.2))
  else (l, r)

/-- Lines 713-740: the Escalator look-alike darkness redirect (714-717,
able to overwrite `level_type` 6 or 7 when darkness exceeds 0.1), the
final two Ocean bounding fixes (719-733) and the Escalator insomniac
redirect (735-739, with the duplicated `level_type == 18` disjunct as
written). -/
def cascade7 (l0 : Level ℚ) (r0 : Rng) : Level ℚ × Rng :=
  let l1 := if l0.map = 4 ∧ (l0.level_type = 3 ∨ l0.level_type = 4 ∨
      l0.darkness > 0.1) then
      { l0 with level_type := 21 } else l0
  let l2 := if l1.map = 1 ∧ (l1.zoom_out_max = -255 ∨ l1.zoom_in_max = -255 ∨
      l1.behavior = 2 ∨ l1.behavior = 4 ∨ l1.behavior = 6) then
      { l1 with horiz_dist := 40.6, vert_dist := 60.4, unk7 := 0 } else l1
  let l3 := if l2.map = 1 ∧ (l2.zoom_out_max = -255 ∨ l2.zoom_in_max = -255 ∨
      l2.behavior = 0 ∨ l2.behavior = 1 ∨ l2.behavior = 3) then
      { l2 with horiz_dist := 6.4, vert_dist := 17.1, unk7 := 0 } else l2
  let l4 := if l3.map = 4 ∧ (l3.level_type = 17 ∨ l3.level_type = 18 ∨
      l3.level_type = 18) then
      { l3 with behavior := 1, level_type := 2 } else l3
  (l4, r0)

/-- One full iteration of the Randomize loop body (lines 175-745) for
level index `i`: the unconditional prefix followed by the fix cascade in
source order.  Returns the decision-step `level_type` (the value chosen
at lines 176-202, recorded so that it can be compared with the final
one), the finished level, the advanced stream, and the updated pairing
flag. -/
def randomizeLevel (r : Rng) (p : Bool) (i lastIdx : Nat) (lvl : Level ℚ) :
    (Nat × Level ℚ) × Rng × Bool :=
  let ph := phase1 r p i lastIdx lvl
  let c1 := cascade1 ph.1 ph.2.1
  let c2 := fixEscalatorMiis c1.1 c1.2
  let c3 := cascade2 c2.1 c2.2
  let c4 := fixSpaceMiis c3.1 c3.2
  let c5 := fixSpaceBehavior5 c4.1 c4.2
  let c6 := fixEscalatorSleepyhead c5.1 c5.2
  let c7 := fixSpaceBehavior01 c6.1 c6.2
  let c8 := cascade3 c7.1 c7.2
  let c9 := cascade4 c8.1 c8.2
  let c10 := cascade5 c9.1 c9.2
  let c11 := fixStreetWalking c10.1 c10.2
  let c12 := cascade6 c11.1 c11.2
  let c13 := fixOceanMiis c12.1 c12.2
  let c14 := cascade7 c13.1 c13.2
  ((ph.1.level_type, c14.1), c14.2, ph.2.2)

/-- The Randomize per-level loop (lines 172-745), threading the stream
and the `favorite_pending` flag through the table in index order. -/
def randLoop (r : Rng) (p : Bool) (i lastIdx : Nat) :
    List (Level ℚ) → List (Nat × Level ℚ)
  | [] => []
  | lvl :: rest =>
    let res := randomizeLevel r p i lastIdx lvl
    res.1 :: randLoop res.2.1 res.2.2 (i + 1) lastIdx rest

/-- Checked `usize` subtraction: Rust's `levels.len() - 1` (line 174)
underflows, and panics under overflow checks, when `len() == 0`. -/
def usizeSub (a b : Nat) : Option Nat := if b ≤ a then some (a - b) else none

/-- The Randomize operation (lines 165-748) on a decoded input table:
compute `last_idx`, run the per-level loop from a fresh stream and a
clear pairing flag, and return the finished table (which line 747-748
then writes unconditionally).  `none` models the underflow of
`levels.len() - 1` on an empty input. -/
def randomize (r : Rng) (levels : List (Level ℚ)) : Option (List (Level ℚ)) :=
  match usizeSub levels.length 1 with
  | none => none
  | some lastIdx => some ((randLoop r false 0 lastIdx levels).map Prod.snd)

/-- The `level_type` values chosen by the decision step (lines 176-202)
during a Randomize run, before any later fix rule overwrites them. -/
def decidedTypes (r : Rng) (levels : List (Level ℚ)) : Option (List Nat) :=
  match usizeSub levels.length 1 with
  | none => none
  | some lastIdx => some ((randLoop r false 0 lastIdx levels).map Prod.fst)

lemma sampleNat_mem (r : Rng) (lo hi : Nat) (h : lo ≤ hi) :
    lo ≤ (sampleNat r lo hi).1 ∧ (sampleNat r lo hi).1 ≤ hi := by
  simp only [sampleNat]
  have : ratToNat r.next.1 % (hi + 1 - lo) < hi + 1 - lo := Nat.mod_lt _ (by omega)
  omega

lemma phase1_level_type (r : Rng) (p : Bool) (i last : Nat) (lvl : Level ℚ) :
    (phase1 r p i last lvl).1.level_type = (decideType r p i last).1 := by
  simp [phase1, apply_ite Level.level_type,
    apply_ite (Prod.fst (α := Level ℚ) (β := Rng))]

lemma randomizeLevel_chosen (r : Rng) (p : Bool) (i last : Nat) (lvl : Level ℚ) :
    (randomizeLevel r p i last lvl).1.1 = (decideType r p i last).1 := by
  simp only [randomizeLevel]
  exact phase1_level_type r p i last lvl

lemma randomizeLevel_pending (r : Rng) (p : Bool) (i last : Nat) (lvl : Level ℚ) :
    (randomizeLevel r p i last lvl).2.2 = (decideType r p i last).2.2 := by
  simp only [randomizeLevel, phase1]

lemma phase1_num_miis_bound (r : Rng) (p : Bool) (i last : Nat) (lvl : Level ℚ) :
    6 ≤ (phase1 r p i last lvl).1.num_miis ∧
      (phase1 r p i last lvl).1.num_miis ≤ 90 := by
  have hmem := sampleNat_mem (decideType r p i last).2.1 6
    (if lvl.map = 4 then 40 else 90) (by split <;> omega)
  have hproj : (phase1 r p i last lvl).1.num_miis =
      (sampleNat (decideType r p i last).2.1 6 (if lvl.map = 4 then 40 else 90)).1 := by
    simp [phase1, apply_ite Level.num_miis,
      apply_ite (Prod.fst (α := Level ℚ) (β := Rng))]
  rw [hproj]
  obtain ⟨h1, h2⟩ := hmem
  refine ⟨h1, ?_⟩
  revert h2
  split <;> omega

/-- The Mii-cap invariant carried through the fix cascade: at least 6
Miis, and at most 40 on the Escalator stage (map 4) or 90 elsewhere. -/
def MiiOk (l : Level ℚ) : Prop :=
  6 ≤ l.num_miis ∧ l.num_miis ≤ if l.map = 4 then 40 else 90

lemma MiiOk_congr {l l' : Level ℚ} (hn : l'.num_miis = l.num_miis)
    (hm : l'.map = l.map) (h : MiiOk l) : MiiOk l' := by
  unfold MiiOk at *
  rw [hn, hm]
  exact h

lemma cascade1_frame (l : Level ℚ) (r : Rng) :
    (cascade1 l r).1.num_miis = l.num_miis ∧ (cascade1 l r).1.map = l.map := by
  constructor <;>
    simp [cascade1, apply_ite Level.num_miis, apply_ite Level.map,
      apply_ite (Prod.fst (α := Level ℚ) (β := Rng))]

lemma cascade2_frame (l : Level ℚ) (r : Rng) :
    (cascade2 l r).1.num_miis = l.num_miis ∧ (cascade2 l r).1.map = l.map := by
  constructor <;>
    simp [cascade2, apply_ite Level.num_miis, apply_ite Level.map,
      apply_ite (Prod.fst (α := Level ℚ) (β := Rng))]

lemma cascade3_frame (l : Level ℚ) (r : Rng) :
    (cascade3 l r).1.num_miis = l.num_miis ∧ (cascade3 l r).1.map = l.map := by
  constructor <;>
    simp [cascade3, apply_ite Level.num_miis, apply_ite Level.map,
      apply_ite (Prod.fst (α := Level ℚ) (β := Rng))]

lemma cascade4_frame (l : Level ℚ) (r : Rng) :
    (cascade4 l r).1.num_miis = l.num_miis ∧ (cascade4 l r).1.map = l.map := by
  constructor <;>
    simp [cascade4, apply_ite Level.num_miis, apply_ite Level.map,
      apply_ite (Prod.fst (α := Level ℚ) (β := Rng))]

lemma cascade5_frame (l : Level ℚ) (r : Rng) :
    (cascade5 l r).1.num_miis = l.num_miis ∧ (cascade5 l r).1.map = l.map := by
  constructor <;>
    simp [cascade5, apply_ite Level.num_miis, apply_ite Level.map,
      apply_ite (Prod.fst (α := Level ℚ) (β := Rng))]

lemma cascade6_frame (l : Level ℚ) (r : Rng) :
    (cascade6 l r).1.num_miis = l.num_miis ∧ (cascade6 l r).1.map = l.map := by
  constructor <;>
    simp [cascade6, apply_ite Level.num_miis, apply_ite Level.map,
      apply_ite (Prod.fst (α := Level ℚ) (β := Rng))]

lemma cascade7_frame (l : Level ℚ) (r : Rng) :
    (cascade7 l r).1.num_miis = l.num_miis ∧ (cascade7 l r).1.map = l.map := by
  constructor <;>
    simp [cascade7, apply_ite Level.num_miis, apply_ite Level.map,
      apply_ite (Prod.fst (α := Level ℚ) (β := Rng))]

lemma fixEscalatorSleepyhead_frame (l : Level ℚ) (r : Rng) :
    (fixEscalatorSleepyhead l r).1.num_miis = l.num_miis ∧
      (fixEscalatorSleepyhead l r).1.map = l.map := by
  constructor <;>
    simp [fixEscalatorSleepyhead, apply_ite Level.num_miis, apply_ite Level.map,
      apply_ite (Prod.fst (α := Level ℚ) (β := Rng))]

lemma fixEscalatorMiis_MiiOk (l : Level ℚ) (r : Rng)
    (h6 : 6 ≤ l.num_miis) (h90 : l.num_miis ≤ 90) :
    MiiOk (fixEscalatorMiis l r).1 := by
  unfold fixEscalatorMiis MiiOk
  split
  next hm =>
    have := sampleNat_mem r 8 40 (by omega)
    simp [hm]
    omega
  next hm =>
    refine ⟨h6, ?_⟩
    simp [hm]
    omega

lemma fixSpaceMiis_MiiOk (l : Level ℚ) (r : Rng) (h : MiiOk l) :
    MiiOk (fixSpaceMiis l r).1 := by
  unfold fixSpaceMiis MiiOk
  split
  next hc =>
    have := sampleNat_mem r 20 30 (by omega)
    simp [hc]
    omega
  next => exact h

lemma fixSpaceBehavior5_MiiOk (l : Level ℚ) (r : Rng) (h : MiiOk l) :
    MiiOk (fixSpaceBehavior5 l r).1 := by
  unfold fixSpaceBehavior5 MiiOk
  split
  next hc =>
    have := sampleNat_mem r 8 12 (by omega)
    simp [hc.1]
    omega
  next => exact h

lemma fixSpaceBehavior01_MiiOk (l : Level ℚ) (r : Rng) (h : MiiOk l) :
    MiiOk (fixSpaceBehavior01 l r).1 := by
  unfold fixSpaceBehavior01 MiiOk
  split
  next hc =>
    have := sampleNat_mem r 8 10 (by omega)
    simp [hc.1]
    omega
  next => exact h

lemma fixStreetWalking_MiiOk (l : Level ℚ) (r : Rng) (h : MiiOk l) :
    MiiOk (fixStreetWalking l r).1 := by
  unfold fixStreetWalking MiiOk
  split
  next hc =>
    have := sampleNat_mem (sampleRat r 30 38.3).2 8 45 (by omega)
    simp [hc.1]
    omega
  next => exact h

lemma fixOceanMiis_MiiOk (l : Level ℚ) (r : Rng) (h : MiiOk l) :
    MiiOk (fixOceanMiis l r).1 := by
  unfold fixOceanMiis MiiOk
  split
  next hc =>
    have := sampleNat_mem r 8 64 (by omega)
    simp [hc.1]
    omega
  next => exact h

lemma randomizeLevel_MiiOk (r : Rng) (p : Bool) (i last : Nat) (lvl : Level ℚ) :
    MiiOk (randomizeLevel r p i last lvl).1.2 := by
  simp only [randomizeLevel]
  have hph := phase1_num_miis_bound r p i last lvl
  have hc1 := cascade1_frame (phase1 r p i last lvl).1 (phase1 r p i last lvl).2.1
  apply MiiOk_congr (cascade7_frame _ _).1 (cascade7_frame _ _).2
  apply fixOceanMiis_MiiOk
  apply MiiOk_congr (cascade6_frame _ _).1 (cascade6_frame _ _).2
  apply fixStreetWalking_MiiOk
  apply MiiOk_congr (cascade5_frame _ _).1 (cascade5_frame _ _).2
  apply MiiOk_congr (cascade4_frame _ _).1 (cascade4_frame _ _).2
  apply MiiOk_congr (cascade3_frame _ _).1 (cascade3_frame _ _).2
  apply fixSpaceBehavior01_MiiOk
  apply MiiOk_congr (fixEscalatorSleepyhead_frame _ _).1 (fixEscalatorSleepyhead_frame _ _).2
  apply fixSpaceBehavior5_MiiOk
  apply fixSpaceMiis_MiiOk
  apply MiiOk_congr (cascade2_frame _ _).1 (cascade2_frame _ _).2
  apply fixEscalatorMiis_MiiOk
  · rw [hc1.1]
    exact hph.1
  · rw [hc1.1]
    exact hph.2

lemma randLoop_length (levels : List (Level ℚ)) :
    ∀ (r : Rng) (p : Bool) (i last : Nat),
      (randLoop r p i last levels).length = levels.length := by
  induction levels with
  | nil => intro r p i last; rfl
  | cons lvl rest ih =>
    intro r p i last
    simp only [randLoop, List.length_cons, ih]

lemma randLoop_MiiOk (levels : List (Level ℚ)) :
    ∀ (r : Rng) (p : Bool) (i last : Nat) (x : Nat × Level ℚ),
      x ∈ randLoop r p i last levels → MiiOk x.2 := by
  induction levels with
  | nil => intro r p i last x hx; simp [randLoop] at hx
  | cons lvl rest ih =>
    intro r p i last x hx
    simp only [randLoop, List.mem_cons] at hx
    rcases hx with h | h
    · subst h
      exact randomizeLevel_MiiOk r p i last lvl
    · exact ih _ _ _ _ _ h

/-- C6: every level of an engine-produced table respects the
map-specific Mii ceiling — at most 40 when the final `map` is 4, at most
99 (indeed at most 90) otherwise. -/
theorem C6_mii_cap_invariant (r : Rng) (levels out : List (Level ℚ))
    (h : randomize r levels = some out) :
    ∀ l ∈ out, l.num_miis ≤ if l.map = 4 then 40 else 99 := by
  intro l hl
  unfold randomize at h
  rcases hans : usizeSub levels.length 1 with _ | lastIdx
  · rw [hans] at h
    exact absurd h (by simp)
  · rw [hans] at h
    injection h with h
    subst h
    simp only [List.mem_map] at hl
    obtain ⟨x, hx, rfl⟩ := hl
    obtain ⟨h1, h2⟩ := randLoop_MiiOk levels r false 0 lastIdx x hx
    revert h2
    split <;> omega

/-- C10: every level of an engine-produced table has at least 6 Miis:
the initial draw is from `[6, cap]` and every later resample has a
minimum of 8 or more. -/
theorem C10_mii_floor_invariant (r : Rng) (levels out : List (Level ℚ))
    (h : randomize r levels = some out) :
    ∀ l ∈ out, 6 ≤ l.num_miis := by
  intro l hl
  unfold randomize at h
  rcases hans : usizeSub levels.length 1 with _ | lastIdx
  · rw [hans] at h
    exact absurd h (by simp)
  · rw [hans] at h
    injection h with h
    subst h
    simp only [List.mem_map] at hl
    obtain ⟨x, hx, rfl⟩ := hl
    exact (randLoop_MiiOk levels r false 0 lastIdx x hx).1

lemma randomize_total (r : Rng) (levels : List (Level ℚ)) (hne : levels ≠ []) :
    usizeSub levels.length 1 = some (levels.length - 1) ∧
      (randomize r levels).isSome = true ∧
      ((randomize r levels).getD []).length = levels.length := by
  have hlen : 1 ≤ levels.length := by
    cases levels with
    | nil => exact absurd rfl hne
    | cons a b => simp
  have hsub : usizeSub levels.length 1 = some (levels.length - 1) := by
    simp [usizeSub, hlen]
  refine ⟨hsub, ?_, ?_⟩
  · simp [randomize, hsub]
  · simp [randomize, hsub, randLoop_length]

/-- C9: the randomize operation requires a non-empty input table:
`levels.len() - 1` underflows exactly on an empty decoded input, and for
every non-empty input the subtraction is safe and the loop produces one
output level per input index `0..N-1`. -/
theorem C9_nonempty_input_required (r : Rng) :
    randomize r [] = none ∧
      ∀ levels : List (Level ℚ), levels ≠ [] →
        usizeSub levels.length 1 = some (levels.length - 1) ∧
          (randomize r levels).isSome = true ∧
          ((randomize r levels).getD []).length = levels.length :=
  ⟨rfl, fun levels hne => randomize_total r levels hne⟩

/-- C5 (amended): no rule ever reports a `Conflict`/`EmptySet` and no
generation aborts — that failure mode does not exist in the code; a
later rule whose requirement contradicts an earlier exact assignment
simply overwrites it (last writer wins), and for every stream and
non-empty input the complete table is produced and written. -/
theorem C5_amended_no_conflict (r : Rng) (levels : List (Level ℚ))
    (hne : levels ≠ []) :
    (randomize r levels).isSome = true ∧
      ((randomize r levels).getD []).length = levels.length :=
  ⟨(randomize_total r levels hne).2.1, (randomize_total r levels hne).2.2⟩

/-- The three favorite-pairing warnings of the Validation Pass. -/
def isPairingWarning : Warning → Bool
  | Warning.dup_pick_favorite _ => true
  | Warning.unmatched_find_favorite _ => true
  | Warning.unresolved_favorite_pairing => true
  | _ => false

/-- The spec's favorite-pairing invariant on a sequence of `level_type`
values, stated as the scan of §4.5: a 6 only when no pairing is open, a
7 only when one is, and no pairing left open at the end. -/
def pairingOk (p : Bool) : List Nat → Bool
  | [] => !p
  | t :: ts =>
    if t = 6 then !p && pairingOk true ts
    else if t = 7 then p && pairingOk false ts
    else pairingOk p ts


lemma scanLevel_pending {α : Type} (p : Bool) (idx : Nat) (l : Level α) :
    (scanLevel p idx l).1 =
      if l.level_type = 6 then true
      else if l.level_type = 7 then false
      else p := by
  unfold scanLevel
  cases p <;> by_cases h6 : l.level_type = 6 <;> by_cases h7 : l.level_type = 7 <;>
    simp [h6, h7] <;>
    (try (split <;> try simp)) <;> (try (split <;> simp))

lemma scanLevel_pairing_filter {α : Type} (p : Bool) (idx : Nat) (l : Level α) :
    (scanLevel p idx l).2.filter (fun w => isPairingWarning w) =
      if l.level_type = 6 ∧ p = true then [Warning.dup_pick_favorite idx]
      else if l.level_type = 7 ∧ p = false then [Warning.unmatched_find_favorite idx]
      else [] := by
  unfold scanLevel
  cases p <;> by_cases h6 : l.level_type = 6 <;> by_cases h7 : l.level_type = 7 <;>
    simp [h6, h7, isPairingWarning, List.filter_append] <;>
    (try (split <;> try simp [isPairingWarning])) <;>
    (try (split <;> simp [isPairingWarning]))

lemma validateFrom_pairing_iff {α : Type} (ls : List (Level α)) :
    ∀ (p : Bool) (idx : Nat),
      ((validateFrom p idx ls).filter (fun w => isPairingWarning w) = [] ↔
        pairingOk p (ls.map Level.level_type) = true) := by
  induction ls with
  | nil =>
    intro p idx
    cases p <;> simp [validateFrom, pairingOk, isPairingWarning]
  | cons l rest ih =>
    intro p idx
    simp only [validateFrom, List.map_cons, pairingOk, List.filter_append,
      List.append_eq_nil, scanLevel_pairing_filter, scanLevel_pending, ih]
    by_cases h6 : l.level_type = 6
    · cases p <;> simp [h6]
    · by_cases h7 : l.level_type = 7
      · cases p <;> simp [h6, h7]
      · cases p <;> simp [h6, h7]

lemma randLoop_types_pairingOk (levels : List (Level ℚ)) :
    ∀ (r : Rng) (p : Bool) (i lastIdx : Nat),
      i + levels.length = lastIdx + 1 → (levels = [] → p = false) →
      pairingOk p ((randLoop r p i lastIdx levels).map Prod.fst) = true := by
  induction levels with
  | nil =>
    intro r p i last hlen hp
    simp [randLoop, pairingOk, hp rfl]
  | cons lvl rest ih =>
    intro r p i last hlen hp
    simp only [randLoop, List.map_cons, randomizeLevel_chosen, randomizeLevel_pending]
    rcases eq_or_ne i last with heq | hne
    · have hrest : rest = [] := by
        cases rest with
        | nil => rfl
        | cons a b => simp at hlen; omega
      subst hrest
      subst heq
      simp only [randLoop, List.map_nil]
      unfold decideType
      rw [if_pos rfl]
      cases p with
      | true => simp [pairingOk]
      | false =>
        simp only [Bool.false_eq_true, if_false]
        have hs := sampleNat_mem r 1 19 (by omega)
        generalize hg : (sampleNat r 1 19).1 = v at hs ⊢
        have hne6 : (if v > 5 then v + 2 else v) ≠ 6 := by split <;> omega
        have hne7 : (if v > 5 then v + 2 else v) ≠ 7 := by split <;> omega
        simp [pairingOk, hne6, hne7]
    · unfold decideType
      rw [if_neg hne]
      have hlen' : i + 1 + rest.length = last + 1 := by
        simp at hlen
        omega
      have hp' : rest = [] → False := by
        intro h
        subst h
        simp at hlen'
        omega
      by_cases h67 : (sampleNat r 1 21).1 = 6 ∨ (sampleNat r 1 21).1 = 7
      · rw [if_pos h67]
        cases p with
        | true =>
          simp only [if_true, pairingOk]
          simp
          exact ih _ _ _ _ hlen' (fun h => absurd h hp')
        | false =>
          simp only [Bool.false_eq_true, if_false, pairingOk]
          simp
          exact ih _ _ _ _ hlen' (fun h => absurd h hp')
      · rw [if_neg h67]
        push_neg at h67
        simp only [pairingOk, if_neg h67.1, if_neg h67.2]
        exact ih _ _ _ _ hlen' (fun h => absurd h hp')

/-- C1 (amended): the `level_type` values chosen by the decision step
(lines 176-202) satisfy the favorite-pairing invariant: any table whose
`level_type` column equals the decision-step types passes the Validation
Pass with zero `DuplicatePickFavorite`, `UnmatchedFindFavorite` and
`UnresolvedFavoritePairing` warnings.  The full engine output need not:
later fix rules (lines 610, 662, 675, 714 among others) may overwrite a
chosen 6 or 7. -/
theorem C1_amended_decided_types_pairing {α : Type} (r : Rng)
    (levels : List (Level ℚ)) (ts : List Nat) (ls : List (Level α))
    (hts : decidedTypes r levels = some ts)
    (hls : ls.map Level.level_type = ts) :
    (validate ls).filter (fun w => isPairingWarning w) = [] := by
  unfold decidedTypes at hts
  rcases hsub : usizeSub levels.length 1 with _ | lastIdx
  · rw [hsub] at hts
    exact absurd hts (by simp)
  · rw [hsub] at hts
    injection hts with hts
    have hne : levels ≠ [] := by
      intro h
      subst h
      simp [usizeSub] at hsub
    have hlen : 0 + levels.length = lastIdx + 1 := by
      unfold usizeSub at hsub
      split at hsub
      · injection hsub with hsub
        cases levels with
        | nil => exact absurd rfl hne
        | cons a b => simp at hsub ⊢; omega
      · exact absurd hsub (by simp)
    have hok := randLoop_types_pairingOk levels r false 0 lastIdx hlen
      (fun h => absurd h hne)
    exact (validateFrom_pairing_iff ls false 0).mpr (by rw [hls, ← hts]; exact hok)

lemma phase1_ext (r : Rng) (p : Bool) (i last : Nat) (la lb : Level ℚ)
    (hm : la.map = lb.map) (h7 : la.unk7 = lb.unk7)
    (hh : la.horiz_dist = lb.horiz_dist) (hv : la.vert_dist = lb.vert_dist) :
    phase1 r p i last la = phase1 r p i last lb := by
  simp [phase1, hm, h7, hh, hv, Prod.ext_iff, Level.ext_iff,
    apply_ite Level.num_miis, apply_ite Level.behavior, apply_ite Level.level_type,
    apply_ite Level.map, apply_ite Level.zoom_out_max, apply_ite Level.zoom_in_max,
    apply_ite Level.unk7, apply_ite Level.horiz_dist, apply_ite Level.vert_dist,
    apply_ite Level.darkness, apply_ite Level.head_size, apply_ite Level.unk12,
    apply_ite Level.unk13, apply_ite Level.unk14, apply_ite Level.unk15,
    apply_ite Level.unk16,
    apply_ite (Prod.fst (α := Level ℚ) (β := Rng)),
    apply_ite (Prod.snd (α := Level ℚ) (β := Rng))]

lemma randomizeLevel_ext (r : Rng) (p : Bool) (i last : Nat) (la lb : Level ℚ)
    (hm : la.map = lb.map) (h7 : la.unk7 = lb.unk7)
    (hh : la.horiz_dist = lb.horiz_dist) (hv : la.vert_dist = lb.vert_dist) :
    randomizeLevel r p i last la = randomizeLevel r p i last lb := by
  simp only [randomizeLevel, phase1_ext r p i last la lb hm h7 hh hv]

/-- The four input fields the randomizer actually reads or passes
through: `map` (read at line 204 before being redrawn) and the floats
`unk7`, `horiz_dist`, `vert_dist` (not written on every path). -/
def ReadFields (a b : Level ℚ) : Prop :=
  a.map = b.map ∧ a.unk7 = b.unk7 ∧ a.horiz_dist = b.horiz_dist ∧
    a.vert_dist = b.vert_dist

lemma randLoop_ext (ta : List (Level ℚ)) :
    ∀ (tb : List (Level ℚ)) (r : Rng) (p : Bool) (i last : Nat),
      List.Forall₂ ReadFields ta tb →
      randLoop r p i last ta = randLoop r p i last tb := by
  induction ta with
  | nil =>
    intro tb r p i last h
    cases h
    rfl
  | cons a ta ih =>
    intro tb r p i last h
    cases h with
    | cons hab htail =>
      simp only [randLoop]
      rw [randomizeLevel_ext r p i last a _ hab.1 hab.2.1 hab.2.2.1 hab.2.2.2,
        ih _ _ _ _ _ htail]

/-- C3 (amended): the engine is deterministic in the seed together with
the input fields it actually reads — per level the input `map` and the
pass-through floats `unk7`, `horiz_dist`, `vert_dist`.  Two runs with
the same stream and inputs agreeing on those fields produce identical
output tables.  Seed and length alone do NOT determine the output: the
`num_miis` cap of line 204 reads the input `map` (see the
counterexample). -/
theorem C3_amended_determinism (r : Rng) (t1 t2 : List (Level ℚ))
    (h : List.Forall₂ ReadFields t1 t2) :
    randomize r t1 = randomize r t2 := by
  have hlen : t1.length = t2.length := h.length_eq
  unfold randomize
  rw [hlen]
  cases husb : usizeSub t2.length 1 with
  | none => rfl
  | some lastIdx =>
    simp only [randLoop_ext t1 t2 r false 0 lastIdx h]

attribute [local semireducible] Rat.ofScientific

/-- The all-zero randomizer input level. -/
def zeroLevelR : Level ℚ := ⟨0, 0, 0, 0, 0, 0, 0, 0, 0, 0, 0, 0, 0, 0, 0, 0⟩

/-- Raw draws of a concrete stream under which the engine chooses
`level_type` 6 for level 0 on map 0 with darkness 84, which the fix at
line 610 then overwrites. -/
def exStream1 : List ℚ := [5, 0, 0, 0, 0, 0, 1, 0, 0, 0, 0, 0, 0,
  0, 0, 1, 0, 0, 0, 0, 0, 0, 0, 0, 0, 0]

/-- The stream `exStream1` at position 0. -/
def exRng1 : Rng := ⟨fun n => exStream1.getD n 0, 0⟩

set_option maxRecDepth 20000 in
/-- C1 counterexample: under the stream `exRng1` on a 2-level input the
decision step chooses types `[6, 7]`, but the darkness fix at line 610
overwrites level 0's type (6 becomes 10, later 8), so the engine output
validates to an `UnmatchedFindFavorite` warning at index 1 — not zero
pairing warnings. -/
theorem C1_counterexample_pairing_warning :
    decidedTypes exRng1 [zeroLevelR, zeroLevelR] = some [6, 7] ∧
      (randomize exRng1 [zeroLevelR, zeroLevelR]).map (fun o => validate o) =
        some [Warning.unmatched_find_favorite 1] := by
  decide

/-- Raw draws of a concrete stream that sends both 1-level runs of the
C3 counterexample through the same control path while the `num_miis`
draw of line 211 lands on different values for the two input `map`s. -/
def exStream3 : List ℚ := [0, 40, 0, 0, 0, 0, 0, 0, 0, 0, 0, 0, 0, 0]

/-- The stream `exStream3` at position 0. -/
def exRng3 : Rng := ⟨fun n => exStream3.getD n 0, 0⟩

/-- A 1-level input whose `map` is 4 instead of 0. -/
def exIn3 : Level ℚ := { zeroLevelR with map := 4 }

set_option maxRecDepth 20000 in
/-- C3 counterexample: two inputs of the same length (1) run with the
same stream produce different outputs — the line 204 cap reads the
input `map`, so `num_miis` is drawn from `[6, 90]` versus `[6, 40]`,
giving 46 versus 11.  Seed and table length alone do not determine the
output. -/
theorem C3_counterexample_input_dependence :
    ([zeroLevelR] : List (Level ℚ)).length = ([exIn3] : List (Level ℚ)).length ∧
      (randomize exRng3 [zeroLevelR]).map (fun o => o.map fun l => l.num_miis) =
        some [46] ∧
      (randomize exRng3 [exIn3]).map (fun o => o.map fun l => l.num_miis) =
        some [11] ∧
      randomize exRng3 [zeroLevelR] ≠ randomize exRng3 [exIn3] := by
  decide

/-- Raw draws of a concrete stream under which the behavior rule of
line 219 chooses 3 for a type-5 level. -/
def exStream5 : List ℚ := [4, 0, 1, 3, 0, 0, 0, 0, 0, 0]

/-- The stream `exStream5` at position 0. -/
def exRng5 : Rng := ⟨fun n => exStream5.getD n 0, 0⟩

set_option maxRecDepth 20000 in
/-- C5 counterexample: under `exRng5` the prefix (lines 176-248) decides
`behavior = 3` for a type-5 level (the line 219 draw), and the later
rule at line 302-305 — whose requirement `behavior = 1` contradicts that
exact value — silently overwrites it: the finished level has
`level_type` 5 and `behavior` 1, no `Conflict` is reported, and the full
table is still produced and written. -/
theorem C5_counterexample_silent_overwrite :
    (phase1 exRng5 false 0 0 zeroLevelR).1.behavior = 3 ∧
      (randomize exRng5 [zeroLevelR]).map
          (fun o => o.map fun l => (l.level_type, l.behavior)) =
        some [(5, 1)] := by
  decide

/-- The all-zero stream, used by the witnesses. -/
def exRngW : Rng := ⟨fun _ => 0, 0⟩

/-- The level the engine produces from the all-zero stream on the
all-zero 1-level input. -/
def exOutW : Level ℚ :=
  ⟨6, 0, 1, 0, -199, -199, 0, 11.4, 12.9, 0, 1.35, 0, 0, 0, 0, 0⟩

set_option maxRecDepth 20000 in
/-- C1 witness: the amended theorem applied to the all-zero 1-level run
(decided types `[1]`) and a table carrying exactly those types. -/
theorem C1_amended_decided_types_pairing_witness :
    (validate [{ zeroLevel with level_type := 1 }]).filter
      (fun w => isPairingWarning w) = [] :=
  C1_amended_decided_types_pairing exRngW [zeroLevelR] [1]
    [{ zeroLevel with level_type := 1 }] (by decide) (by decide)

/-- C3 witness: the amended determinism theorem applied to two concrete
1-level inputs agreeing on `map`, `unk7`, `horiz_dist`, `vert_dist` but
differing in `num_miis` and `level_type`. -/
theorem C3_amended_determinism_witness :
    randomize exRngW [zeroLevelR] =
      randomize exRngW [{ zeroLevelR with num_miis := 7, level_type := 3 }] :=
  C3_amended_determinism exRngW [zeroLevelR]
    [{ zeroLevelR with num_miis := 7, level_type := 3 }]
    (List.Forall₂.cons ⟨rfl, rfl, rfl, rfl⟩ List.Forall₂.nil)

/-- C5 witness: the amended theorem applied to the all-zero 1-level
run. -/
theorem C5_amended_no_conflict_witness :
    (randomize exRngW [zeroLevelR]).isSome = true ∧
      ((randomize exRngW [zeroLevelR]).getD []).length =
        ([zeroLevelR] : List (Level ℚ)).length :=
  C5_amended_no_conflict exRngW [zeroLevelR] (by decide)

set_option maxRecDepth 20000 in
/-- C6 witness: the cap invariant evaluated on the level produced by the
all-zero run. -/
theorem C6_mii_cap_invariant_witness :
    exOutW.num_miis ≤ if exOutW.map = 4 then 40 else 99 :=
  C6_mii_cap_invariant exRngW [zeroLevelR] [exOutW] (by decide) exOutW
    (by decide)

set_option maxRecDepth 20000 in
/-- C10 witness: the floor invariant evaluated on the level produced by
the all-zero run. -/
theorem C10_mii_floor_invariant_witness : 6 ≤ exOutW.num_miis :=
  C10_mii_floor_invariant exRngW [zeroLevelR] [exOutW] (by decide) exOutW
    (by decide)

/-- C9 witness: the empty input yields `none` and the 1-level input is
processed in full. -/
theorem C9_nonempty_input_required_witness :
    randomize exRngW [] = none ∧
      usizeSub ([zeroLevelR] : List (Level ℚ)).length 1 =
        some (([zeroLevelR] : List (Level ℚ)).length - 1) ∧
      (randomize exRngW [zeroLevelR]).isSome = true ∧
      ((randomize exRngW [zeroLevelR]).getD []).length =
        ([zeroLevelR] : List (Level ℚ)).length :=
  ⟨(C9_nonempty_input_required exRngW).1,
   (C9_nonempty_input_required exRngW).2 [zeroLevelR] (by decide)⟩
